import Mathlib

/-!
# Verification of the PanCam bounded 2D camera controller

Shallow embedding of `src/camera.rs` (the `PanCamPlugin` systems
`camera_zoom` and `camera_movement`, the helper
`max_scale_within_bounds`, and the spawn routine
`new_camera2d_with_constraints`), with the claims of the specification
settled as theorems.

Modelling conventions:
* `f32` values are embedded as `ℚ`; all arithmetic is exact.
* The camera entity's mutable data — `Transform.translation` and the
  `OrthographicProjection`'s `scale` and `area` rectangle — is gathered
  in one record `CamState`.  Bevy recomputes `area` from `scale` and the
  window only in `PostUpdate` (after both systems ran), so inside a
  frame `area` reflects the scale the frame started with; the embedding
  therefore carries `area` explicitly instead of deriving it.
* `OrthographicProjection.update` for the settings this repository uses
  (the `Camera2dBundle` default: `ScalingMode.WindowSize 1.0` and a
  centred viewport origin) produces the centred rectangle of size
  `window * scale`; this matches the repository's own unit tests
  (window 100×100 at scale 1 has a 100×100 world area).
* `f32.clamp`, which panics when the lower bound exceeds the upper one,
  is embedded as an `Option`-returning function (`none` = panic).
-/

/-- Mouse buttons reported by the input layer (`bevy::input::MouseButton`). -/
inductive MouseButton where
  | left
  | right
  | middle
  | other (code : Nat)
deriving DecidableEq, Repr

/-- Per-tick button queries of `Res<Input<MouseButton>>`:
`pressed` and `just_pressed`. -/
structure ButtonState where
  pressed : MouseButton → Bool
  just_pressed : MouseButton → Bool

/-- Unit tag of a mouse wheel event (`bevy::input::mouse::MouseScrollUnit`). -/
inductive MouseScrollUnit where
  | pixel
  | line
deriving DecidableEq, Repr

/-- A mouse wheel event; only the unit and the vertical amount `y` are
read by `camera_zoom`. -/
structure MouseWheel where
  unit : MouseScrollUnit
  y : ℚ
deriving DecidableEq, Repr

/-- The `PanCam` component: configuration of the camera controller,
with the same fields as the Rust struct. -/
structure PanCam where
  grab_buttons : List MouseButton
  enabled : Bool
  zoom_to_cursor : Bool
  min_scale : ℚ
  max_scale : Option ℚ
  min_x : Option ℚ
  max_x : Option ℚ
  min_y : Option ℚ
  max_y : Option ℚ
deriving Repr

/-- The `Default` instance of `PanCam` from the source. -/
def pancamDefault : PanCam where
  grab_buttons := [MouseButton.left, MouseButton.right, MouseButton.middle]
  enabled := true
  zoom_to_cursor := true
  min_scale := 1 / 100000
  max_scale := none
  min_x := none
  max_x := none
  min_y := none
  max_y := none

/-- Mutable camera data: the translation of the camera `Transform` and
the `scale` and `area` rectangle of its `OrthographicProjection`.
`areaMin*`/`areaMax*` are the corners of `proj.area`. -/
structure CamState where
  posX : ℚ
  posY : ℚ
  posZ : ℚ
  scale : ℚ
  areaMinX : ℚ
  areaMinY : ℚ
  areaMaxX : ℚ
  areaMaxY : ℚ
deriving DecidableEq, Repr

/-- Fixed constant of `camera_zoom`: pixels per `MouseScrollUnit.Line`. -/
def pixelsPerLine : ℚ := 100

/-- Pixel-equivalent amount of one scroll event, as summed by
`camera_zoom`. -/
def scrollAmount (ev : MouseWheel) : ℚ :=
  match ev.unit with
  | MouseScrollUnit.pixel => ev.y
  | MouseScrollUnit.line => ev.y * pixelsPerLine

/-- Net scroll delta of a tick: the sum of the pixel-equivalent amounts
of the tick's scroll events. -/
def scrollTotal (evs : List MouseWheel) : ℚ :=
  (evs.map scrollAmount).sum

/-- Normalised device coordinates of a cursor pixel position:
`(cursor / window) * 2 - 1`, then the y axis flipped
(`camera_zoom`, mouse_normalized_screen_pos). -/
def normScreen (c : ℚ × ℚ) (window : ℚ × ℚ) : ℚ × ℚ :=
  ((c.1 / window.1) * 2 - 1, -((c.2 / window.2) * 2 - 1))

/-- Half size of the `OrthographicProjection.area` rectangle produced by
`update window` at a given scale, for the projection settings of this
repository (`ScalingMode.WindowSize 1.0`, centred origin): the area is
the centred rectangle of size `window * scale`. -/
def projAreaHalf (window : ℚ × ℚ) (scale : ℚ) : ℚ × ℚ :=
  (window.1 * scale / 2, window.2 * scale / 2)

/-- Visible world extent at `scale = 1` for a window, as recomputed by
`max_scale_within_bounds` (clone the projection, set scale to 1, update
with the window, take the area size). -/
def baseWorldSize (window : ℚ × ℚ) : ℚ × ℚ :=
  (2 * (projAreaHalf window 1).1, 2 * (projAreaHalf window 1).2)

/-- Embeds `max_scale_within_bounds`: the per-axis maximum safe scale is
the bounds size divided by the base world size of the window. -/
def max_scale_within_bounds (bounds_size : ℚ × ℚ) (window_size : ℚ × ℚ) : ℚ × ℚ :=
  ((bounds_size.1 / (baseWorldSize window_size).1 : ℚ),
   (bounds_size.2 / (baseWorldSize window_size).2 : ℚ))

/-- One axis of the position clamp shared by `camera_zoom`,
`camera_movement` (and, per the spec, the spawn routine): raise to
`lo + half` when a lower bound is set, then lower to `hi - half` when an
upper bound is set — max first, min second, so the upper bound wins when
the two conflict. -/
def clampAxis (lo hi : Option ℚ) (half x : ℚ) : ℚ :=
  let x1 := match lo with
    | some b => max x (b + half)
    | none => x
  match hi with
  | some b => min x1 (b - half)
  | none => x1

/-- Whether some grab button is pressed and was not just pressed this
tick (the `any` condition of `camera_movement`). -/
def grabActive (cam : PanCam) (buttons : ButtonState) : Bool :=
  cam.grab_buttons.any fun b => buttons.pressed b && !buttons.just_pressed b

/-- The full guard of the pan mutation: camera enabled and a grab button
held (not just pressed). -/
def panApplies (cam : PanCam) (buttons : ButtonState) : Bool :=
  cam.enabled && grabActive cam buttons

/-- Scale computation of `camera_zoom` for a nonzero scroll total:
multiply by `1 + -scroll * 0.001`, floor at `min_scale`, cap at
`max_scale` when set, then cap at the per-axis maximum safe scale for
every axis that has both bounds set.  (In the source the bounds size of
an axis without both bounds is `f32::INFINITY`, and its component of
`max_scale_within_bounds` is never read; the embedding passes `0` for
that never-read component.) -/
def zoomTargetScale (cam : PanCam) (scale : ℚ) (scroll : ℚ) (window : ℚ × ℚ) : ℚ :=
  let s1 := max (scale * (1 + -scroll * (1 / 1000))) cam.min_scale
  let s2 := match cam.max_scale with
    | some m => min s1 m
    | none => s1
  let cx := cam.min_x.isSome && cam.max_x.isSome
  let cy := cam.min_y.isSome && cam.max_y.isSome
  if cx || cy then
    let s3 := if cx then
        min s2 (max_scale_within_bounds
          (cam.max_x.getD 0 - cam.min_x.getD 0, 0) window).1
      else s2
    if cy then
      min s3 (max_scale_within_bounds
        (0, cam.max_y.getD 0 - cam.min_y.getD 0) window).2
    else s3
  else s2

/-- Embeds the `camera_zoom` system for one camera: sum the scroll
events (no-op when the total is zero or the camera is disabled), update
the scale, and — only when the cursor position is known and
`zoom_to_cursor` is set — reposition so the world point under the
cursor is preserved and clamp the position against the bounds, with the
half viewport taken from the projection's current `area` rectangle. -/
def camera_zoom (cam : PanCam) (st : CamState) (evs : List MouseWheel)
    (cursor : Option (ℚ × ℚ)) (window : ℚ × ℚ) : CamState :=
  let scroll := scrollTotal evs
  if scroll = 0 then st
  else
    let mouseNorm := cursor.map fun c => normScreen c window
    if cam.enabled then
      let old_scale := st.scale
      let newScale := zoomTargetScale cam st.scale scroll window
      match mouseNorm, cam.zoom_to_cursor with
      | some mn, true =>
        let projSizeX := st.areaMaxX / old_scale
        let projSizeY := st.areaMaxY / old_scale
        let mwx := st.posX + mn.1 * projSizeX * old_scale
        let mwy := st.posY + mn.2 * projSizeY * old_scale
        let halfX := (st.areaMaxX - st.areaMinX) / 2
        let halfY := (st.areaMaxY - st.areaMinY) / 2
        { st with
          scale := newScale
          posX := clampAxis cam.min_x cam.max_x halfX (mwx - mn.1 * projSizeX * newScale)
          posY := clampAxis cam.min_y cam.max_y halfY (mwy - mn.2 * projSizeY * newScale) }
      | _, _ => { st with scale := newScale }
    else st

/-- Embeds the `camera_movement` system for one camera, together with
its `Local<Option<Vec2>>` last-cursor-position state: return unchanged
when the cursor is absent (leaving the carried position untouched);
otherwise, when enabled and a grab button is held (not just pressed),
move opposite to the cursor delta converted to world units and clamp
against the bounds; finally record the current (y-negated) cursor
position. -/
def camera_movement (cam : PanCam) (st : CamState) (buttons : ButtonState)
    (cursor : Option (ℚ × ℚ)) (lastPos : Option (ℚ × ℚ)) (window : ℚ × ℚ) :
    CamState × Option (ℚ × ℚ) :=
  match cursor with
  | none => (st, lastPos)
  | some c =>
    let current : ℚ × ℚ := (c.1, -c.2)
    let last := lastPos.getD current
    let st2 :=
      if panApplies cam buttons then
        let szX := st.areaMaxX - st.areaMinX
        let szY := st.areaMaxY - st.areaMinY
        { st with
          posX := clampAxis cam.min_x cam.max_x (szX / 2)
            (st.posX - (current.1 - last.1) * (szX / window.1))
          posY := clampAxis cam.min_y cam.max_y (szY / 2)
            (st.posY - (current.2 - last.2) * (szY / window.2)) }
      else st
    (st2, some current)

/-- A sequence of zoom ticks folded over the camera state; each tick
supplies its scroll events and cursor position. -/
def zoomSeq (cam : PanCam) (window : ℚ × ℚ)
    (ticks : List (List MouseWheel × Option (ℚ × ℚ))) (st : CamState) : CamState :=
  ticks.foldl (fun s t => camera_zoom cam s t.1 t.2 window) st

/-- World position under a cursor pixel for a camera at `pos` with the
given scale: camera position plus the normalised cursor coordinates
times the half visible extent at that scale (the unprojection used by
`camera_zoom` when it computes `mouse_world_pos`). -/
def cursorWorldPos (pos : ℚ × ℚ) (scale : ℚ) (c window : ℚ × ℚ) : ℚ × ℚ :=
  ((pos.1 + (normScreen c window).1 * (projAreaHalf window scale).1 : ℚ),
   (pos.2 + (normScreen c window).2 * (projAreaHalf window scale).2 : ℚ))

/-- Largest finite `f32` value, exactly. -/
def f32MAX : ℚ := (2 ^ 24 - 1) * 2 ^ 104

/-- Smallest finite `f32` value, exactly. -/
def f32MIN : ℚ := -f32MAX

/-- Embeds `f32::clamp`: `none` models the panic raised when the lower
bound exceeds the upper bound. -/
def rustClamp (x lo hi : ℚ) : Option ℚ :=
  if lo ≤ hi then some (min (max x lo) hi) else none

/-- The parts of the `Camera2dBundle` returned by
`new_camera2d_with_constraints` that the claims are about: the
projection scale, the projection area (left at the `OrthographicProjection`
default rectangle from `(-1, -1)` to `(1, 1)`, since the routine never
calls `update`), and the transform translation. -/
structure Camera2dBundleModel where
  projScale : ℚ
  areaMinX : ℚ
  areaMinY : ℚ
  areaMaxX : ℚ
  areaMaxY : ℚ
  posX : ℚ
  posY : ℚ
  posZ : ℚ
deriving DecidableEq, Repr

/-- Embeds `new_camera2d_with_constraints`: build a projection with the
fixed scale `0.5` (area left at the default `Rect::new(-1, -1, 1, 1)`,
of size 2×2), place the transform at `(pos.x, pos.y, 1000 - 0.1)`, and
clamp each translation axis with `f32::clamp` between
`bound_min + area_half` and `bound_max - area_half`, absent bounds
defaulting to `f32::MIN` / `f32::MAX`.  `none` models the panic of
`f32::clamp` on an inverted range. -/
def new_camera2d_with_constraints (pancam : PanCam) (pos : ℚ × ℚ × ℚ) :
    Option Camera2dBundleModel :=
  let areaHalfX : ℚ := (1 - (-1)) / 2
  let areaHalfY : ℚ := (1 - (-1)) / 2
  let min_x_boundary := pancam.min_x.getD f32MIN
  let max_x_boundary := pancam.max_x.getD f32MAX
  let min_y_boundary := pancam.min_y.getD f32MIN
  let max_y_boundary := pancam.max_y.getD f32MAX
  match rustClamp pos.1 (min_x_boundary + areaHalfX) (max_x_boundary - areaHalfX),
        rustClamp pos.2.1 (min_y_boundary + areaHalfY) (max_y_boundary - areaHalfY) with
  | some cx, some cy =>
    some { projScale := 1 / 2
           areaMinX := -1
           areaMinY := -1
           areaMaxX := 1
           areaMaxY := 1
           posX := cx
           posY := cy
           posZ := 1000 - 1 / 10 }
  | _, _ => none

/-- The `PanCam` configuration built by `camera_spawn` for a map of the
given pixel size; when the tile map asset is missing, `map_size` is the
`Vec2` default `(0, 0)`. -/
def spawnPanCam (mapSize : ℚ × ℚ) : PanCam :=
  { pancamDefault with
    min_scale := 1 / 4
    max_scale := some 30
    min_x := some 0
    min_y := some 0
    max_x := some mapSize.1
    max_y := some mapSize.2 }

def heldButtons : ButtonState where
  pressed := fun b => match b with
    | MouseButton.left => true
    | _ => false
  just_pressed := fun _ => false

def firstPressButtons : ButtonState where
  pressed := fun b => match b with
    | MouseButton.left => true
    | _ => false
  just_pressed := fun b => match b with
    | MouseButton.left => true
    | _ => false

def releasedButtons : ButtonState where
  pressed := fun _ => false
  just_pressed := fun _ => false

def c9Cam : PanCam := { pancamDefault with grab_buttons := [MouseButton.left] }

def c9St : CamState where
  posX := 0
  posY := 0
  posZ := 0
  scale := 1
  areaMinX := -50
  areaMinY := -50
  areaMaxX := 50
  areaMaxY := 50

def c9Tick1 : CamState × Option (ℚ × ℚ) :=
  camera_movement c9Cam c9St firstPressButtons (some (0, 0)) none (100, 100)

def c9Tick2 : CamState × Option (ℚ × ℚ) :=
  camera_movement c9Cam c9Tick1.1 heldButtons none c9Tick1.2 (100, 100)

def c9Tick3 : CamState × Option (ℚ × ℚ) :=
  camera_movement c9Cam c9Tick2.1 heldButtons (some (10, 0)) c9Tick2.2 (100, 100)

def c1Cam : PanCam :=
  { pancamDefault with
    min_scale := 1/100
    min_x := some 0
    max_x := some 100
    min_y := some 0
    max_y := some 100 }

def c1St : CamState where
  posX := 25
  posY := 25
  posZ := 0
  scale := 1/2
  areaMinX := -25
  areaMinY := -25
  areaMaxX := 25
  areaMaxY := 25

def c1Evs : List MouseWheel := [⟨MouseScrollUnit.pixel, -1000⟩]

def c2Cam : PanCam :=
  { pancamDefault with
    min_scale := 1
    max_scale := some (1/2)
    zoom_to_cursor := false }

def c5Cam : PanCam :=
  { pancamDefault with
    min_scale := 1/100
    zoom_to_cursor := false
    min_x := some 0
    max_x := some 10 }

def c5Evs : List MouseWheel := [⟨MouseScrollUnit.pixel, -1000⟩]

def c10Cam : PanCam := { pancamDefault with max_scale := some (3/10) }

def c10Bundle : Camera2dBundleModel where
  projScale := 1/2
  areaMinX := -1
  areaMinY := -1
  areaMaxX := 1
  areaMaxY := 1
  posX := 5
  posY := 7
  posZ := 1000 - 1/10

theorem clampAxis_none_none (half x : ℚ) : clampAxis none none half x = x := rfl

theorem clampAxis_both (mn mx half x : ℚ) :
    clampAxis (some mn) (some mx) half x = min (max x (mn + half)) (mx - half) := rfl

theorem clampAxis_both_mem (mn mx half x : ℚ) (h : mn + half ≤ mx - half) :
    mn + half ≤ clampAxis (some mn) (some mx) half x
      ∧ clampAxis (some mn) (some mx) half x ≤ mx - half := by
  rw [clampAxis_both]
  exact ⟨le_min (le_max_right x (mn + half)) h, min_le_right _ _⟩

theorem clampAxis_both_over (mn mx half x : ℚ) (h : mx - half < mn + half) :
    clampAxis (some mn) (some mx) half x = mx - half := by
  rw [clampAxis_both]
  exact min_eq_right (le_trans (le_of_lt h) (le_max_right x (mn + half)))

theorem camera_movement_applies (cam : PanCam) (st : CamState) (buttons : ButtonState)
    (c : ℚ × ℚ) (lastPos : Option (ℚ × ℚ)) (window : ℚ × ℚ)
    (h : panApplies cam buttons = true) :
    (camera_movement cam st buttons (some c) lastPos window).1 =
      { st with
        posX := clampAxis cam.min_x cam.max_x ((st.areaMaxX - st.areaMinX) / 2)
          (st.posX - (c.1 - (lastPos.getD (c.1, -c.2)).1)
            * ((st.areaMaxX - st.areaMinX) / window.1))
        posY := clampAxis cam.min_y cam.max_y ((st.areaMaxY - st.areaMinY) / 2)
          (st.posY - (-c.2 - (lastPos.getD (c.1, -c.2)).2)
            * ((st.areaMaxY - st.areaMinY) / window.2)) } := by
  simp [camera_movement, h]

theorem camera_zoom_cursor_eq (cam : PanCam) (st : CamState) (evs : List MouseWheel)
    (c : ℚ × ℚ) (window : ℚ × ℚ)
    (hs : scrollTotal evs ≠ 0) (he : cam.enabled = true) (hz : cam.zoom_to_cursor = true) :
    camera_zoom cam st evs (some c) window =
      { st with
        scale := zoomTargetScale cam st.scale (scrollTotal evs) window
        posX := clampAxis cam.min_x cam.max_x ((st.areaMaxX - st.areaMinX) / 2)
          (st.posX + (normScreen c window).1 * (st.areaMaxX / st.scale) * st.scale
            - (normScreen c window).1 * (st.areaMaxX / st.scale)
              * zoomTargetScale cam st.scale (scrollTotal evs) window)
        posY := clampAxis cam.min_y cam.max_y ((st.areaMaxY - st.areaMinY) / 2)
          (st.posY + (normScreen c window).2 * (st.areaMaxY / st.scale) * st.scale
            - (normScreen c window).2 * (st.areaMaxY / st.scale)
              * zoomTargetScale cam st.scale (scrollTotal evs) window) } := by
  simp [camera_zoom, hs, he, hz]

theorem camera_zoom_pos_unchanged_no_cursor (cam : PanCam) (st : CamState)
    (evs : List MouseWheel) (window : ℚ × ℚ) :
    (camera_zoom cam st evs none window).posX = st.posX
      ∧ (camera_zoom cam st evs none window).posY = st.posY := by
  by_cases hs : scrollTotal evs = 0
  · simp [camera_zoom, hs]
  · by_cases he : cam.enabled <;> simp [camera_zoom, hs, he]

theorem camera_zoom_pos_unchanged_no_ztc (cam : PanCam) (st : CamState)
    (evs : List MouseWheel) (cursor : Option (ℚ × ℚ)) (window : ℚ × ℚ)
    (hz : cam.zoom_to_cursor = false) :
    (camera_zoom cam st evs cursor window).posX = st.posX
      ∧ (camera_zoom cam st evs cursor window).posY = st.posY := by
  by_cases hs : scrollTotal evs = 0
  · simp [camera_zoom, hs]
  · by_cases he : cam.enabled <;> cases cursor <;> simp [camera_zoom, hs, he, hz]

theorem zoomTargetScale_ge (cam : PanCam) (scale scroll : ℚ) (window : ℚ × ℚ)
    (hmax : ∀ m, cam.max_scale = some m → cam.min_scale ≤ m)
    (hbx : ∀ mn mx, cam.min_x = some mn → cam.max_x = some mx →
      cam.min_scale ≤ (max_scale_within_bounds (mx - mn, 0) window).1)
    (hby : ∀ mn mx, cam.min_y = some mn → cam.max_y = some mx →
      cam.min_scale ≤ (max_scale_within_bounds (0, mx - mn) window).2) :
    cam.min_scale ≤ zoomTargetScale cam scale scroll window := by
  unfold zoomTargetScale
  have h1 : cam.min_scale ≤ max (scale * (1 + -scroll * (1 / 1000))) cam.min_scale :=
    le_max_right _ _
  have h2 : cam.min_scale ≤
      (match cam.max_scale with
        | some m => min (max (scale * (1 + -scroll * (1 / 1000))) cam.min_scale) m
        | none => max (scale * (1 + -scroll * (1 / 1000))) cam.min_scale) := by
    cases hm : cam.max_scale with
    | none => exact h1
    | some m => exact le_min h1 (hmax m hm)
  by_cases hcx : (cam.min_x.isSome && cam.max_x.isSome) = true
  · obtain ⟨mn, hmn⟩ := Option.isSome_iff_exists.mp (Bool.and_elim_left hcx)
    obtain ⟨mx, hmx⟩ := Option.isSome_iff_exists.mp (Bool.and_elim_right hcx)
    by_cases hcy : (cam.min_y.isSome && cam.max_y.isSome) = true
    · obtain ⟨my1, hmy1⟩ := Option.isSome_iff_exists.mp (Bool.and_elim_left hcy)
      obtain ⟨my2, hmy2⟩ := Option.isSome_iff_exists.mp (Bool.and_elim_right hcy)
      simp only [hcx, hcy, hmn, hmx, hmy1, hmy2, Bool.true_or, if_true, Option.getD_some]
      exact le_min (le_min h2 (by simpa [hmn, hmx] using hbx mn mx hmn hmx))
        (by simpa [hmy1, hmy2] using hby my1 my2 hmy1 hmy2)
    · simp only [hcx, hcy, hmn, hmx, Bool.true_or, if_true, if_false, Option.getD_some]
      exact le_min h2 (by simpa [hmn, hmx] using hbx mn mx hmn hmx)
  · by_cases hcy : (cam.min_y.isSome && cam.max_y.isSome) = true
    · obtain ⟨my1, hmy1⟩ := Option.isSome_iff_exists.mp (Bool.and_elim_left hcy)
      obtain ⟨my2, hmy2⟩ := Option.isSome_iff_exists.mp (Bool.and_elim_right hcy)
      simp only [hcx, hcy, hmy1, hmy2, Bool.false_or, if_true, if_false, Option.getD_some]
      exact le_min h2 (by simpa [hmy1, hmy2] using hby my1 my2 hmy1 hmy2)
    · simp only [hcx, hcy, Bool.false_or, if_false]
      exact h2

theorem camera_zoom_scale_min (cam : PanCam) (st : CamState) (evs : List MouseWheel)
    (cursor : Option (ℚ × ℚ)) (window : ℚ × ℚ)
    (hst : cam.min_scale ≤ st.scale)
    (hmax : ∀ m, cam.max_scale = some m → cam.min_scale ≤ m)
    (hbx : ∀ mn mx, cam.min_x = some mn → cam.max_x = some mx →
      cam.min_scale ≤ (max_scale_within_bounds (mx - mn, 0) window).1)
    (hby : ∀ mn mx, cam.min_y = some mn → cam.max_y = some mx →
      cam.min_scale ≤ (max_scale_within_bounds (0, mx - mn) window).2) :
    cam.min_scale ≤ (camera_zoom cam st evs cursor window).scale := by
  by_cases hs : scrollTotal evs = 0
  · simpa [camera_zoom, hs] using hst
  · by_cases he : cam.enabled
    · cases cursor with
      | none =>
        simpa [camera_zoom, hs, he] using zoomTargetScale_ge cam st.scale (scrollTotal evs) window hmax hbx hby
      | some c =>
        cases hz : cam.zoom_to_cursor <;>
          simpa [camera_zoom, hs, he, hz] using
            zoomTargetScale_ge cam st.scale (scrollTotal evs) window hmax hbx hby
    · simpa [camera_zoom, hs, he] using hst

/-- Claim C8: a zoom tick whose scroll events sum to zero, or with the camera
disabled, leaves the state bit-identical; a pan tick with no grab button held
(buttons first pressed this tick do not count), or with the camera disabled,
leaves the camera state unchanged. -/
theorem noop_on_zero_input :
    (∀ (cam : PanCam) (st : CamState) (evs : List MouseWheel)
        (cursor : Option (ℚ × ℚ)) (window : ℚ × ℚ), scrollTotal evs = 0 →
        camera_zoom cam st evs cursor window = st)
    ∧ (∀ (cam : PanCam) (st : CamState) (evs : List MouseWheel)
        (cursor : Option (ℚ × ℚ)) (window : ℚ × ℚ), cam.enabled = false →
        camera_zoom cam st evs cursor window = st)
    ∧ (∀ (cam : PanCam) (st : CamState) (buttons : ButtonState)
        (cursor lastPos : Option (ℚ × ℚ)) (window : ℚ × ℚ),
        grabActive cam buttons = false →
        (camera_movement cam st buttons cursor lastPos window).1 = st)
    ∧ (∀ (cam : PanCam) (st : CamState) (buttons : ButtonState)
        (cursor lastPos : Option (ℚ × ℚ)) (window : ℚ × ℚ), cam.enabled = false →
        (camera_movement cam st buttons cursor lastPos window).1 = st) := by
  refine ⟨?_, ?_, ?_, ?_⟩
  · intro cam st evs cursor window h
    simp [camera_zoom, h]
  · intro cam st evs cursor window h
    by_cases hs : scrollTotal evs = 0 <;> simp [camera_zoom, hs, h]
  · intro cam st buttons cursor lastPos window h
    cases cursor with
    | none => rfl
    | some c => simp [camera_movement, panApplies, h]
  · intro cam st buttons cursor lastPos window h
    cases cursor with
    | none => rfl
    | some c => simp [camera_movement, panApplies, h]

/-- Witness for claim C8 at a concrete input: a zero-sum pair of scroll events
and a released-buttons pan both leave a concrete state unchanged. -/
theorem noop_on_zero_input_witness :
    camera_zoom c9Cam c9St [⟨MouseScrollUnit.pixel, 100⟩, ⟨MouseScrollUnit.line, -1⟩]
        (some (10, 10)) (100, 100) = c9St
    ∧ (camera_movement c9Cam c9St releasedButtons (some (10, 10)) none (100, 100)).1 = c9St := by
  constructor
  · exact noop_on_zero_input.1 c9Cam c9St _ (some (10, 10)) (100, 100)
      (by norm_num [scrollTotal, scrollAmount, pixelsPerLine])
  · exact noop_on_zero_input.2.2.1 c9Cam c9St releasedButtons (some (10, 10)) none (100, 100)
      (by decide)

/-- Claim C9 counterexample: the cursor is present at tick 1 (button first
pressed), absent at tick 2 (button held), and present again at tick 3 (button
held).  The claim requires tick 3 to be a no-op because the cursor was
unavailable the previous tick; instead the code pans using the cursor position
recorded before the cursor-absent tick, moving the camera from x = 0 to
x = -10. -/
theorem pan_stale_cursor_counterexample :
    c9Tick2.1.posX = 0 ∧ c9Tick3.1.posX = -10 := by
  constructor
  · norm_num [c9Tick2, c9Tick1, camera_movement, panApplies, grabActive, c9Cam, c9St,
      pancamDefault, firstPressButtons, heldButtons, clampAxis]
  · norm_num [c9Tick3, c9Tick2, c9Tick1, camera_movement, panApplies, grabActive, c9Cam,
      c9St, pancamDefault, firstPressButtons, heldButtons, clampAxis]

/-- Claim C9 (amended): the pan operation is a no-op, with the carried
last-known cursor position also untouched, whenever the cursor is unavailable
this tick; and the carried position is set to the current (y-negated) cursor
position at the end of every tick in which the cursor is available, whether or
not dragging is active — across cursor-absent ticks it keeps its old value, so
a drag re-engaged after a cursor-absent period computes its delta from the
last tick the cursor was available. -/
theorem pan_last_pos_behavior :
    (∀ (cam : PanCam) (st : CamState) (buttons : ButtonState)
        (lastPos : Option (ℚ × ℚ)) (window : ℚ × ℚ),
        camera_movement cam st buttons none lastPos window = (st, lastPos))
    ∧ (∀ (cam : PanCam) (st : CamState) (buttons : ButtonState) (c : ℚ × ℚ)
        (lastPos : Option (ℚ × ℚ)) (window : ℚ × ℚ),
        (camera_movement cam st buttons (some c) lastPos window).2 = some (c.1, -c.2)) := by
  constructor
  · intro cam st buttons lastPos window
    rfl
  · intro cam st buttons c lastPos window
    by_cases h : panApplies cam buttons <;> simp [camera_movement, h]

/-- Claim C6: the maximum safe scale of a fully bounded axis is the bounds
width divided by the base world extent of the window at scale 1, and the
concrete instances of the repository's unit tests hold: for a 100 by 100
window (base world size 100 by 100 at scale 1), bounds width 100 gives max
scale 1, width 50 gives 1/2, width 200 gives 2, and the same for height. -/
theorem max_scale_within_bounds_law :
    (∀ window bs : ℚ × ℚ,
        (max_scale_within_bounds bs window).1 = bs.1 / (baseWorldSize window).1
        ∧ (max_scale_within_bounds bs window).2 = bs.2 / (baseWorldSize window).2)
    ∧ baseWorldSize (100, 100) = (100, 100)
    ∧ (max_scale_within_bounds (100, 0) (100, 100)).1 = 1
    ∧ (max_scale_within_bounds (50, 0) (100, 100)).1 = 1 / 2
    ∧ (max_scale_within_bounds (200, 0) (100, 100)).1 = 2
    ∧ (max_scale_within_bounds (0, 100) (100, 100)).2 = 1
    ∧ (max_scale_within_bounds (0, 50) (100, 100)).2 = 1 / 2
    ∧ (max_scale_within_bounds (0, 200) (100, 100)).2 = 2 := by
  refine ⟨fun window bs => ⟨rfl, rfl⟩, ?_, ?_, ?_, ?_, ?_, ?_, ?_⟩ <;>
    norm_num [max_scale_within_bounds, baseWorldSize, projAreaHalf]

/-- Claim C7: with a grab button held (not first pressed), the camera enabled
and no bounds set, a pan with screen cursor delta (dx, dy) moves the position
by exactly (-dx * visible_width / window_width, +dy * visible_height /
window_height) — the y axis inverted — and leaves the scale untouched.  `l` is
the previous tick's screen cursor position, carried as `(l.1, -l.2)`. -/
theorem pan_direction_exact (cam : PanCam) (st : CamState) (buttons : ButtonState)
    (c l window : ℚ × ℚ)
    (hp : panApplies cam buttons = true)
    (hx1 : cam.min_x = none) (hx2 : cam.max_x = none)
    (hy1 : cam.min_y = none) (hy2 : cam.max_y = none) :
    ((camera_movement cam st buttons (some c) (some (l.1, -l.2)) window).1).posX
        = st.posX - (c.1 - l.1) * ((st.areaMaxX - st.areaMinX) / window.1)
    ∧ ((camera_movement cam st buttons (some c) (some (l.1, -l.2)) window).1).posY
        = st.posY + (c.2 - l.2) * ((st.areaMaxY - st.areaMinY) / window.2)
    ∧ ((camera_movement cam st buttons (some c) (some (l.1, -l.2)) window).1).scale
        = st.scale := by
  rw [camera_movement_applies cam st buttons c (some (l.1, -l.2)) window hp]
  refine ⟨?_, ?_, rfl⟩
  · simp [hx1, hx2, clampAxis]
  · simp [hy1, hy2, clampAxis]
    ring

/-- Witness for claim C7 at a concrete input: dragging the cursor from (0, 0)
to (10, 4) with the left button held moves a camera with a 100-wide visible
area over a 100-pixel window from (0, 0) to (-10, 4). -/
theorem pan_direction_exact_witness :
    ((camera_movement c9Cam c9St heldButtons (some (10, 4)) (some (0, -0)) (100, 100)).1).posX
        = -10
    ∧ ((camera_movement c9Cam c9St heldButtons (some (10, 4)) (some (0, -0)) (100, 100)).1).posY
        = 4 := by
  have h := pan_direction_exact c9Cam c9St heldButtons (10, 4) (0, 0) (100, 100)
    (by decide) rfl rfl rfl rfl
  refine ⟨?_, ?_⟩
  · rw [h.1]
    norm_num [c9St]
  · rw [h.2.1]
    norm_num [c9St]

/-- Claim C1 counterexample: steady state with window 100 by 100, bounds
[0, 100] on both axes, scale 1/2 (area the centred 50 by 50 rectangle),
position (25, 25), cursor at the window centre, one zoom-out to scale 1.
The position clamp uses the pre-zoom area (half extent 25), so the result
keeps posX = 25, while the claimed interval at the current scale is
[0 + 50, 100 - 50]: the lower bound 50 is violated. -/
theorem camera_clamp_counterexample :
    ((camera_zoom c1Cam c1St c1Evs (some (50, 50)) (100, 100)).scale = 1
      ∧ (camera_zoom c1Cam c1St c1Evs (some (50, 50)) (100, 100)).posX = 25)
    ∧ ¬(0 + (projAreaHalf (100, 100)
          (camera_zoom c1Cam c1St c1Evs (some (50, 50)) (100, 100)).scale).1
        ≤ (camera_zoom c1Cam c1St c1Evs (some (50, 50)) (100, 100)).posX) := by
  have hscale : (camera_zoom c1Cam c1St c1Evs (some (50, 50)) (100, 100)).scale = 1 := by
    norm_num [camera_zoom, zoomTargetScale, scrollTotal, scrollAmount, pixelsPerLine,
      c1Cam, c1St, c1Evs, pancamDefault, normScreen, clampAxis, max_scale_within_bounds,
      baseWorldSize, projAreaHalf]
  have hpos : (camera_zoom c1Cam c1St c1Evs (some (50, 50)) (100, 100)).posX = 25 := by
    norm_num [camera_zoom, zoomTargetScale, scrollTotal, scrollAmount, pixelsPerLine,
      c1Cam, c1St, c1Evs, pancamDefault, normScreen, clampAxis, max_scale_within_bounds,
      baseWorldSize, projAreaHalf]
  refine ⟨⟨hscale, hpos⟩, ?_⟩
  rw [hscale, hpos]
  norm_num [projAreaHalf]

/-- Claim C1 (amended): after an effective pan (camera enabled, a grab button
held and not first pressed, cursor available), for each axis with both bounds
set, with h the half visible extent read from the projection area (the extent
at the current scale, which pan does not change): the position lies in
[min + h, max - h] when that interval is nonempty, and equals max - h when
2h exceeds max - min (max is applied before min, so the upper bound wins).
After an effective zoom with known cursor and zoom_to_cursor set, the same
holds with h read from the incoming projection area — the visible extent at
the pre-zoom scale, since Bevy recomputes the area from the new scale only
after the frame.  A zoom with unknown cursor or with zoom_to_cursor disabled
leaves the position unchanged and applies no bounds clamp at all. -/
theorem camera_clamp_amended :
    (∀ (cam : PanCam) (st : CamState) (buttons : ButtonState)
        (c : ℚ × ℚ) (l : Option (ℚ × ℚ)) (window : ℚ × ℚ) (mn mx : ℚ),
        cam.min_x = some mn → cam.max_x = some mx → panApplies cam buttons = true →
        ((mn + (st.areaMaxX - st.areaMinX) / 2 ≤ mx - (st.areaMaxX - st.areaMinX) / 2 →
            mn + (st.areaMaxX - st.areaMinX) / 2
                ≤ ((camera_movement cam st buttons (some c) l window).1).posX
              ∧ ((camera_movement cam st buttons (some c) l window).1).posX
                ≤ mx - (st.areaMaxX - st.areaMinX) / 2)
          ∧ (mx - (st.areaMaxX - st.areaMinX) / 2 < mn + (st.areaMaxX - st.areaMinX) / 2 →
            ((camera_movement cam st buttons (some c) l window).1).posX
              = mx - (st.areaMaxX - st.areaMinX) / 2)))
    ∧ (∀ (cam : PanCam) (st : CamState) (buttons : ButtonState)
        (c : ℚ × ℚ) (l : Option (ℚ × ℚ)) (window : ℚ × ℚ) (mn mx : ℚ),
        cam.min_y = some mn → cam.max_y = some mx → panApplies cam buttons = true →
        ((mn + (st.areaMaxY - st.areaMinY) / 2 ≤ mx - (st.areaMaxY - st.areaMinY) / 2 →
            mn + (st.areaMaxY - st.areaMinY) / 2
                ≤ ((camera_movement cam st buttons (some c) l window).1).posY
              ∧ ((camera_movement cam st buttons (some c) l window).1).posY
                ≤ mx - (st.areaMaxY - st.areaMinY) / 2)
          ∧ (mx - (st.areaMaxY - st.areaMinY) / 2 < mn + (st.areaMaxY - st.areaMinY) / 2 →
            ((camera_movement cam st buttons (some c) l window).1).posY
              = mx - (st.areaMaxY - st.areaMinY) / 2)))
    ∧ (∀ (cam : PanCam) (st : CamState) (evs : List MouseWheel) (c : ℚ × ℚ)
        (window : ℚ × ℚ) (mn mx : ℚ),
        cam.min_x = some mn → cam.max_x = some mx →
        scrollTotal evs ≠ 0 → cam.enabled = true → cam.zoom_to_cursor = true →
        ((mn + (st.areaMaxX - st.areaMinX) / 2 ≤ mx - (st.areaMaxX - st.areaMinX) / 2 →
            mn + (st.areaMaxX - st.areaMinX) / 2
                ≤ (camera_zoom cam st evs (some c) window).posX
              ∧ (camera_zoom cam st evs (some c) window).posX
                ≤ mx - (st.areaMaxX - st.areaMinX) / 2)
          ∧ (mx - (st.areaMaxX - st.areaMinX) / 2 < mn + (st.areaMaxX - st.areaMinX) / 2 →
            (camera_zoom cam st evs (some c) window).posX
              = mx - (st.areaMaxX - st.areaMinX) / 2)))
    ∧ (∀ (cam : PanCam) (st : CamState) (evs : List MouseWheel) (c : ℚ × ℚ)
        (window : ℚ × ℚ) (mn mx : ℚ),
        cam.min_y = some mn → cam.max_y = some mx →
        scrollTotal evs ≠ 0 → cam.enabled = true → cam.zoom_to_cursor = true →
        ((mn + (st.areaMaxY - st.areaMinY) / 2 ≤ mx - (st.areaMaxY - st.areaMinY) / 2 →
            mn + (st.areaMaxY - st.areaMinY) / 2
                ≤ (camera_zoom cam st evs (some c) window).posY
              ∧ (camera_zoom cam st evs (some c) window).posY
                ≤ mx - (st.areaMaxY - st.areaMinY) / 2)
          ∧ (mx - (st.areaMaxY - st.areaMinY) / 2 < mn + (st.areaMaxY - st.areaMinY) / 2 →
            (camera_zoom cam st evs (some c) window).posY
              = mx - (st.areaMaxY - st.areaMinY) / 2)))
    ∧ (∀ (cam : PanCam) (st : CamState) (evs : List MouseWheel) (window : ℚ × ℚ),
        (camera_zoom cam st evs none window).posX = st.posX
          ∧ (camera_zoom cam st evs none window).posY = st.posY)
    ∧ (∀ (cam : PanCam) (st : CamState) (evs : List MouseWheel)
        (cursor : Option (ℚ × ℚ)) (window : ℚ × ℚ), cam.zoom_to_cursor = false →
        (camera_zoom cam st evs cursor window).posX = st.posX
          ∧ (camera_zoom cam st evs cursor window).posY = st.posY) := by
  refine ⟨?_, ?_, ?_, ?_, ?_, ?_⟩
  · intro cam st buttons c l window mn mx hmn hmx hp
    rw [camera_movement_applies cam st buttons c l window hp]
    simp only [hmn, hmx]
    exact ⟨fun hle => clampAxis_both_mem mn mx _ _ hle,
      fun hlt => clampAxis_both_over mn mx _ _ hlt⟩
  · intro cam st buttons c l window mn mx hmn hmx hp
    rw [camera_movement_applies cam st buttons c l window hp]
    simp only [hmn, hmx]
    exact ⟨fun hle => clampAxis_both_mem mn mx _ _ hle,
      fun hlt => clampAxis_both_over mn mx _ _ hlt⟩
  · intro cam st evs c window mn mx hmn hmx hs he hz
    rw [camera_zoom_cursor_eq cam st evs c window hs he hz]
    simp only [hmn, hmx]
    exact ⟨fun hle => clampAxis_both_mem mn mx _ _ hle,
      fun hlt => clampAxis_both_over mn mx _ _ hlt⟩
  · intro cam st evs c window mn mx hmn hmx hs he hz
    rw [camera_zoom_cursor_eq cam st evs c window hs he hz]
    simp only [hmn, hmx]
    exact ⟨fun hle => clampAxis_both_mem mn mx _ _ hle,
      fun hlt => clampAxis_both_over mn mx _ _ hlt⟩
  · intro cam st evs window
    exact camera_zoom_pos_unchanged_no_cursor cam st evs window
  · intro cam st evs cursor window hz
    exact camera_zoom_pos_unchanged_no_ztc cam st evs cursor window hz

/-- Witness for claim C1 at a concrete input: a pan with bounds [0, 100] and
half extent 25 keeps the position inside [25, 75]. -/
theorem camera_clamp_amended_witness :
    (25 : ℚ) ≤ ((camera_movement c1Cam c1St heldButtons (some (40, 40)) none (100, 100)).1).posX
    ∧ ((camera_movement c1Cam c1St heldButtons (some (40, 40)) none (100, 100)).1).posX
        ≤ 75 := by
  have h := (camera_clamp_amended.1 c1Cam c1St heldButtons (40, 40) none (100, 100) 0 100
    rfl rfl (by decide)).1 (by norm_num [c1St])
  constructor
  · have h1 := h.1
    norm_num [c1St] at h1
    exact h1
  · have h2 := h.2
    norm_num [c1St] at h2
    exact h2

/-- Claim C2 counterexample: with max_scale = 1/2 below min_scale = 1, a
single-operation zoom sequence applied to a state with scale 1 ends with
scale 1/2 < min_scale, because the max_scale cap is applied after the
min_scale floor. -/
theorem zoom_scale_lower_bound_counterexample :
    (zoomSeq c2Cam (100, 100) [([⟨MouseScrollUnit.pixel, 100⟩], none)] c9St).scale
      < c2Cam.min_scale := by
  norm_num [zoomSeq, camera_zoom, zoomTargetScale, scrollTotal, scrollAmount,
    pixelsPerLine, c2Cam, c9St, pancamDefault]

/-- Claim C2 (amended): scale is at least min_scale after every operation of a
zoom sequence provided the caps that the code applies after the min_scale
floor are not themselves below it: the starting scale is at least min_scale,
max_scale (when set) is at least min_scale, and the max safe scale of every
fully bounded axis is at least min_scale.  Without those provisos a cap below
min_scale wins, as the counterexample shows. -/
theorem zoom_scale_lower_bound (cam : PanCam) (window : ℚ × ℚ)
    (ticks : List (List MouseWheel × Option (ℚ × ℚ))) (st : CamState)
    (hst : cam.min_scale ≤ st.scale)
    (hmax : ∀ m, cam.max_scale = some m → cam.min_scale ≤ m)
    (hbx : ∀ mn mx, cam.min_x = some mn → cam.max_x = some mx →
      cam.min_scale ≤ (max_scale_within_bounds (mx - mn, 0) window).1)
    (hby : ∀ mn mx, cam.min_y = some mn → cam.max_y = some mx →
      cam.min_scale ≤ (max_scale_within_bounds (0, mx - mn) window).2) :
    cam.min_scale ≤ (zoomSeq cam window ticks st).scale := by
  induction ticks generalizing st with
  | nil => simpa [zoomSeq] using hst
  | cons t ts ih =>
    simp only [zoomSeq, List.foldl_cons]
    exact ih _ (camera_zoom_scale_min cam st t.1 t.2 window hst hmax hbx hby)

/-- Witness for claim C2 at a concrete input: the default configuration with
a one-tick zoom sequence keeps scale at or above min_scale = 1/100000. -/
theorem zoom_scale_lower_bound_witness :
    pancamDefault.min_scale
      ≤ (zoomSeq pancamDefault (100, 100) [([⟨MouseScrollUnit.pixel, 100⟩], none)] c9St).scale := by
  exact zoom_scale_lower_bound pancamDefault (100, 100)
    [([⟨MouseScrollUnit.pixel, 100⟩], none)] c9St
    (by norm_num [pancamDefault, c9St])
    (by intro m hm; simp [pancamDefault] at hm)
    (by intro mn mx h1 h2; simp [pancamDefault] at h1)
    (by intro mn mx h1 h2; simp [pancamDefault] at h1)

/-- Claim C4: with zoom_to_cursor enabled, no bounds set, the camera enabled,
a nonzero scale and the projection area consistent with the scale and window,
one zoom step with a known cursor preserves the world coordinate under the
cursor exactly: unprojecting the cursor with the new position and scale gives
the same point as with the old ones, for every scroll magnitude. -/
theorem zoom_cursor_anchored (cam : PanCam) (st : CamState) (evs : List MouseWheel)
    (c window : ℚ × ℚ)
    (hz : cam.zoom_to_cursor = true) (he : cam.enabled = true)
    (hx1 : cam.min_x = none) (hx2 : cam.max_x = none)
    (hy1 : cam.min_y = none) (hy2 : cam.max_y = none)
    (hs : st.scale ≠ 0)
    (ha1 : st.areaMaxX = (projAreaHalf window st.scale).1)
    (ha2 : st.areaMaxY = (projAreaHalf window st.scale).2) :
    cursorWorldPos ((camera_zoom cam st evs (some c) window).posX,
        (camera_zoom cam st evs (some c) window).posY)
      (camera_zoom cam st evs (some c) window).scale c window
    = cursorWorldPos (st.posX, st.posY) st.scale c window := by
  by_cases hscr : scrollTotal evs = 0
  · simp [camera_zoom, hscr]
  · rw [camera_zoom_cursor_eq cam st evs c window hscr he hz]
    simp only [hx1, hx2, hy1, hy2, clampAxis, cursorWorldPos, projAreaHalf, Prod.mk.injEq]
    rw [ha1, ha2]
    simp only [projAreaHalf]
    constructor
    · field_simp
      ring
    · field_simp
      ring

/-- Witness for claim C4 at a concrete input: zooming from scale 1 to scale
1/2 with the cursor at (75, 25) of a 100 by 100 window keeps the world point
under the cursor equal before and after. -/
theorem zoom_cursor_anchored_witness :
    cursorWorldPos
        ((camera_zoom pancamDefault c9St [⟨MouseScrollUnit.line, 5⟩] (some (75, 25)) (100, 100)).posX,
          (camera_zoom pancamDefault c9St [⟨MouseScrollUnit.line, 5⟩] (some (75, 25)) (100, 100)).posY)
        (camera_zoom pancamDefault c9St [⟨MouseScrollUnit.line, 5⟩] (some (75, 25)) (100, 100)).scale
        (75, 25) (100, 100)
      = cursorWorldPos (c9St.posX, c9St.posY) c9St.scale (75, 25) (100, 100) := by
  exact zoom_cursor_anchored pancamDefault c9St [⟨MouseScrollUnit.line, 5⟩] (75, 25) (100, 100)
    rfl rfl rfl rfl rfl rfl (by norm_num [c9St]) (by norm_num [c9St, projAreaHalf])
    (by norm_num [c9St, projAreaHalf])

/-- Claim C5 counterexample: with the x axis fully bounded ([0, 10], window
width 100) the scale after one zoom is the bounds cap 1/10, not the claimed
max(scale * (1 - d * 0.001), min_scale) = 2 (max_scale is unset). -/
theorem zoom_scale_formula_counterexample :
    (camera_zoom c5Cam c9St c5Evs none (100, 100)).scale
      ≠ max (c9St.scale * (1 - scrollTotal c5Evs * (1 / 1000))) c5Cam.min_scale := by
  norm_num [camera_zoom, zoomTargetScale, scrollTotal, scrollAmount, pixelsPerLine,
    c5Cam, c5Evs, c9St, pancamDefault, max_scale_within_bounds, baseWorldSize, projAreaHalf]

/-- Claim C5 (amended): the net scroll delta of a tick is the sum over events
of the amount for pixel events and 100 times the amount for line events; for
an enabled camera, a nonzero net delta d and no fully bounded axis, the new
scale equals max(scale * (1 - d * 0.001), min_scale), then min with max_scale
when set.  When some axis has both bounds set the code additionally caps the
result at that axis's max safe scale (see the counterexample). -/
theorem zoom_scale_formula (evs : List MouseWheel) :
    scrollTotal evs
      = (evs.map fun ev =>
          match ev.unit with
          | MouseScrollUnit.pixel => ev.y
          | MouseScrollUnit.line => ev.y * 100).sum
    ∧ (∀ (cam : PanCam) (st : CamState) (cursor : Option (ℚ × ℚ)) (window : ℚ × ℚ),
        cam.enabled = true → scrollTotal evs ≠ 0 →
        (cam.min_x.isSome && cam.max_x.isSome) = false →
        (cam.min_y.isSome && cam.max_y.isSome) = false →
        (camera_zoom cam st evs cursor window).scale
          = match cam.max_scale with
            | some m => min (max (st.scale * (1 - scrollTotal evs * (1 / 1000))) cam.min_scale) m
            | none => max (st.scale * (1 - scrollTotal evs * (1 / 1000))) cam.min_scale) := by
  constructor
  · induction evs with
    | nil => rfl
    | cons e es ih =>
      simp only [scrollTotal, List.map_cons, List.sum_cons] at ih ⊢
      cases hu : e.unit <;> simp [scrollAmount, hu, pixelsPerLine, ih]
  · intro cam st cursor window he hd hcx hcy
    have harg : st.scale * (1 + -(scrollTotal evs) * (1 / 1000))
        = st.scale * (1 - scrollTotal evs * (1 / 1000)) := by ring
    have hts : zoomTargetScale cam st.scale (scrollTotal evs) window
        = match cam.max_scale with
          | some m => min (max (st.scale * (1 - scrollTotal evs * (1 / 1000))) cam.min_scale) m
          | none => max (st.scale * (1 - scrollTotal evs * (1 / 1000))) cam.min_scale := by
      unfold zoomTargetScale
      rw [harg]
      cases hm : cam.max_scale <;> simp [hcx, hcy, hm]
    rw [← hts]
    cases cursor with
    | none => simp [camera_zoom, hd, he]
    | some c => cases hz : cam.zoom_to_cursor <;> simp [camera_zoom, hd, he, hz]

/-- Witness for claim C5 at a concrete input: one line event of amount 5 gives
net delta 500 and scale max(1 * (1 - 0.5), 1/100000) = 1/2 under the default
configuration. -/
theorem zoom_scale_formula_witness :
    (camera_zoom pancamDefault c9St [⟨MouseScrollUnit.line, 5⟩] none (100, 100)).scale
      = 1 / 2 := by
  have h := (zoom_scale_formula [⟨MouseScrollUnit.line, 5⟩]).2 pancamDefault c9St none
    (100, 100) rfl (by norm_num [scrollTotal, scrollAmount, pixelsPerLine]) rfl rfl
  rw [h]
  norm_num [scrollTotal, scrollAmount, pixelsPerLine, pancamDefault, c9St]

/-- Claim C3 (code bug): camera_spawn with a missing tile map builds bounds
[0, 0] on both axes; the spawn routine then calls the panicking f32 clamp
with lower bound 0 + 1 above upper bound 0 - 1 (the default projection area
is the 2 by 2 rectangle and is never updated for the viewport), so the
routine panics — modelled as `none` — instead of clamping max-then-min as
the steady-state updates do. -/
theorem spawn_panics_on_degenerate_bounds :
    new_camera2d_with_constraints (spawnPanCam (0, 0)) (0, 0, 0) = none := by
  norm_num [new_camera2d_with_constraints, spawnPanCam, pancamDefault, rustClamp,
    f32MIN, f32MAX]

/-- Claim C10: whenever the spawn routine returns a bundle, its projection
scale is the constant 1/2, for every configuration and requested position —
never clamped against min_scale or max_scale; in particular with
max_scale = 3/10 the routine still returns (bundle present) and its scale 1/2
violates the scale upper invariant until a zoom runs. -/
theorem spawn_scale_constant :
    (∀ (cam : PanCam) (pos : ℚ × ℚ × ℚ) (r : Camera2dBundleModel),
        new_camera2d_with_constraints cam pos = some r → r.projScale = 1 / 2)
    ∧ (new_camera2d_with_constraints c10Cam (0, 0, 0)).isSome = true
    ∧ (∀ r, new_camera2d_with_constraints c10Cam (0, 0, 0) = some r →
        ∀ m, c10Cam.max_scale = some m → ¬ r.projScale ≤ m) := by
  have hmain : ∀ (cam : PanCam) (pos : ℚ × ℚ × ℚ) (r : Camera2dBundleModel),
      new_camera2d_with_constraints cam pos = some r → r.projScale = 1 / 2 := by
    intro cam pos r h
    simp only [new_camera2d_with_constraints] at h
    split at h
    · simp only [Option.some.injEq] at h
      rw [← h]
    · exact Option.noConfusion h
  refine ⟨hmain, ?_, ?_⟩
  · norm_num [new_camera2d_with_constraints, c10Cam, pancamDefault, rustClamp,
      f32MIN, f32MAX]
  · intro r h m hm
    rw [hmain c10Cam (0, 0, 0) r h]
    simp only [c10Cam, pancamDefault, Option.some.injEq] at hm
    rw [← hm]
    norm_num

/-- Witness for claim C10 at a concrete input: the default configuration
spawned at (5, 7) yields exactly the bundle with projection scale 1/2. -/
theorem spawn_scale_constant_witness :
    c10Bundle.projScale = 1 / 2 :=
  spawn_scale_constant.1 pancamDefault (5, 7, 0) c10Bundle (by
    norm_num [new_camera2d_with_constraints, pancamDefault, rustClamp, f32MIN, f32MAX,
      c10Bundle, min_def, max_def])
